import Mathlib

/-!
Shallow embedding of the `utm` crate (`src/lib.rs`): conversion between
geodetic (latitude/longitude, WGS84 ellipsoid) and UTM coordinates.

Modelling conventions:
* `f64` inputs and the exactly-representable decimal constants of the source
  are modelled as `ℚ` wherever the code only compares, adds, subtracts,
  divides or floors them, so that the control flow and the integer results
  stay exact.
* The transcendental projection payloads (`sin`, `cos`, `tan`, `sqrt`,
  `powf`, `π`) are modelled over `ℝ`; arithmetic is exact (no rounding).
* Rust's saturating float-to-integer cast `expr as u8` is modelled by
  `satCastU8`; `expr as usize` on a non-negative value by `Int.toNat`.
-/

/-- The `Ellipsoid` struct: semi-major axis `a` and flattening `f`.
The two WGS84 literals are exactly representable decimals, kept in `ℚ`. -/
structure Ellipsoid where
  a : ℚ
  f : ℚ

/-- Rust `const WGS84: Ellipsoid = Ellipsoid { a: 6378137.0, f: 1.0 / 298.257222101 }` -/
def WGS84 : Ellipsoid := { a := 6378137, f := 1 / 298.257222101 }

/-- Rust `const ZONE_LETTERS: &str = "CDEFGHJKLMNPQRSTUVWXX"` -/
def ZONE_LETTERS : List Char := "CDEFGHJKLMNPQRSTUVWXX".data

/-- Rust `const K0: f64 = 0.9996;` -/
def K0 : ℚ := 0.9996

/-- Rust `const E: f64 = 0.00669438;` — the hardcoded eccentricity squared used
by the inverse path. -/
def E : ℚ := 0.00669438

/-- Rust's saturating cast `x as u8` for an integral float value `x`:
clamps into `[0, 255]`. -/
def satCastU8 (x : ℤ) : ℕ :=
  if x < 0 then 0 else if 255 < x then 255 else x.toNat

/-- Rust `pub fn lat_lon_to_zone_number(latitude: f64, longitude: f64) -> u8`
(`lib.rs` lines 312-333). -/
def lat_lon_to_zone_number (latitude longitude : ℚ) : ℕ :=
  if 56 ≤ latitude ∧ latitude < 64 ∧ 3 ≤ longitude ∧ longitude < 12 then 32
  else if 72 ≤ latitude ∧ latitude ≤ 84 ∧ 0 ≤ longitude then
    if longitude < 9 then 31
    else if longitude < 21 then 33
    else if longitude < 33 then 35
    else if longitude < 42 then 37
    else satCastU8 (⌊(longitude + 180) / 6⌋ + 1)
  else satCastU8 (⌊(longitude + 180) / 6⌋ + 1)

/-- Rust `pub fn lat_to_zone_letter(latitude: f64) -> Option<char>`
(`lib.rs` lines 291-300): band index is
`((latitude + 80.) / 8.).floor() as usize` into `ZONE_LETTERS`. -/
def lat_to_zone_letter (latitude : ℚ) : Option Char :=
  if -80 ≤ latitude ∧ latitude ≤ 84 then
    ZONE_LETTERS.get? (Int.toNat ⌊(latitude + 80) / 8⌋)
  else none

/-- Rust `fn footprint_latitude(e1: f64, mu: f64) -> f64` (`lib.rs` lines 121-131). -/
noncomputable def footprint_latitude (e1 mu : ℝ) : ℝ :=
  let term1 := 3 * e1 / 2 - 27 * e1 * e1 * e1 / 32
  let term2 := 21 * e1 * e1 / 16 - 55 * e1 * e1 * e1 * e1 / 32
  let term3 := 151 * e1 * e1 * e1 / 96
  let term4 := 1097 * e1 * e1 * e1 * e1 / 512
  mu + term1 * Real.sin (2 * mu) + term2 * Real.sin (4 * mu)
    + term3 * Real.sin (6 * mu) + term4 * Real.sin (8 * mu)

/-- Rust `fn meridian_convergence(northing: f64, easting: f64, ellipsoid: Ellipsoid) -> f64`
(`lib.rs` lines 98-119). -/
noncomputable def meridian_convergence (northing easting : ℝ) (ellipsoid : Ellipsoid) : ℝ :=
  let e2 : ℝ := 2 * (ellipsoid.f : ℝ) - (ellipsoid.f : ℝ) * (ellipsoid.f : ℝ)
  let e1 := (1 - Real.sqrt (1 - e2)) / (1 + Real.sqrt (1 - e2))
  let mu_const := (ellipsoid.a : ℝ) * (1 - e2 / 4 - 3 * e2 * e2 / 64 - 5 * e2 * e2 * e2 / 256)
  let np := northing / 0.9996
  let mu := np / mu_const
  let foot_lat := footprint_latitude e1 mu
  let ep := (easting - 500000) / 0.9996
  let n := (ellipsoid.a : ℝ) / Real.sqrt (1 - e2 * Real.sin foot_lat * Real.sin foot_lat)
  let m := (ellipsoid.a : ℝ) * (1 - e2)
    / (1 - e2 * Real.sin foot_lat * Real.sin foot_lat) ^ (1.5 : ℝ)
  let conv1 := -(ep / n) * Real.tan foot_lat
  let h30 := (ep / n) ^ (3 : ℕ)
  let k28 := n / m
  let k29 := k28 * k28
  let j29 := Real.tan foot_lat * Real.tan foot_lat
  let conv2 := Real.tan foot_lat * h30 / 3 * (-2 * k29 + 3 * k28 + j29)
  conv1 + conv2

/-- Rust `pub fn radians_to_utm_wgs84(latitude: f64, longitude: f64, zone: u8) -> (f64, f64, f64)`
(`lib.rs` lines 62-96). -/
noncomputable def radians_to_utm_wgs84 (latitude longitude : ℝ) (zone : ℕ) : ℝ × ℝ × ℝ :=
  let ellipsoid := WGS84
  let long_origin : ℝ := (zone : ℝ) * 6 - 183
  let e2 := 2 * (ellipsoid.f : ℝ) - (ellipsoid.f : ℝ) * (ellipsoid.f : ℝ)
  let ep2 := e2 / (1 - e2)
  let n := (ellipsoid.a : ℝ) / Real.sqrt (1 - e2 * Real.sin latitude * Real.sin latitude)
  let t := Real.tan latitude * Real.tan latitude
  let c := ep2 * Real.cos latitude * Real.cos latitude
  let a := Real.cos latitude * (longitude - long_origin * Real.pi / 180)
  let term1 := 1 - e2 / 4 - 3 * e2 * e2 / 64 - 5 * e2 * e2 * e2 / 256
  let term2 := 3 * e2 / 8 + 3 * e2 * e2 / 32 + 45 * e2 * e2 * e2 / 1024
  let term3 := 15 * e2 * e2 / 256 + 45 * e2 * e2 * e2 / 1024
  let term4 := 35 * e2 * e2 * e2 / 3072
  let m := (ellipsoid.a : ℝ)
    * (term1 * latitude - term2 * Real.sin (2 * latitude) + term3 * Real.sin (4 * latitude)
      - term4 * Real.sin (6 * latitude))
  let x1 := (1 - t + c) * a * a * a / 6
  let x2 := (5 - 18 * t + t * t + 72 * c - 58 * ep2) * a * a * a * a * a / 120
  let x := 0.9996 * n * (a + x1 + x2)
  let y1 := (5 - t + 9 * c + 4 * c * c) * (a * a * a * a) / 24
  let y2 := (61 - 58 * t + t * t + 600 * c - 330 * ep2) * (a * a * a * a * a * a) / 720
  let y3 := a * a / 2 + y1 + y2
  let y := 0.9996 * (m + n * Real.tan latitude * y3)
  let northing := y
  let easting := x + 500000
  (northing, easting, meridian_convergence northing easting WGS84)

/-- Rust `pub fn to_utm_wgs84(latitude: f64, longitude: f64, zone: u8) -> (f64, f64, f64)`
(`lib.rs` lines 37-41): degrees are converted to radians by `* PI / 180`. -/
noncomputable def to_utm_wgs84 (latitude longitude : ℚ) (zone : ℕ) : ℝ × ℝ × ℝ :=
  radians_to_utm_wgs84 ((latitude : ℝ) * Real.pi / 180) ((longitude : ℝ) * Real.pi / 180) zone

/-- Rust `pub fn to_utm_wgs84_no_zone(latitude: f64, longitude: f64) -> (f64, f64, f64)`
(`lib.rs` lines 43-49). -/
noncomputable def to_utm_wgs84_no_zone (latitude longitude : ℚ) : ℝ × ℝ × ℝ :=
  to_utm_wgs84 latitude longitude (lat_lon_to_zone_number latitude longitude)

/-- Rust `pub enum WSG84ToLatLonError` (`lib.rs` lines 156-162). -/
inductive WSG84ToLatLonError where
  | EastingOutOfRange
  | NorthingOutOfRange
  | ZoneNumOutOfRange
  | ZoneLetterOutOfRange
deriving DecidableEq, Repr

/-- The post-validation body of `wsg84_utm_to_lat_lon` (`lib.rs` lines 204-278),
taking the already hemisphere-adjusted northing `y`. -/
noncomputable def utm_to_lat_lon_core (easting y : ℚ) (zone_num : ℕ) : ℝ × ℝ :=
  let ellipsoid := WGS84
  let e2 := (E : ℝ) ^ (2 : ℕ)
  let e3 := (E : ℝ) ^ (3 : ℕ)
  let e_p2 := (E : ℝ) / (1 - (E : ℝ))
  let sqrt_e := Real.sqrt (1 - (E : ℝ))
  let te := (1 - sqrt_e) / (1 + sqrt_e)
  let te2 := te ^ (2 : ℕ)
  let te3 := te ^ (3 : ℕ)
  let te4 := te ^ (4 : ℕ)
  let te5 := te ^ (5 : ℕ)
  let m1 := 1 - (E : ℝ) / 4 - 3 * e2 / 64 - 5 * e3 / 256
  let p2 := 3 / 2 * te - 27 / 32 * te3 + 269 / 512 * te5
  let p3 := 21 / 16 * te2 - 55 / 32 * te4
  let p4 := 151 / 96 * te3 - 417 / 128 * te5
  let p5 := 1097 / 512 * te4
  let x := (easting : ℝ) - 500000
  let m := (y : ℝ) / (K0 : ℝ)
  let mu := m / ((ellipsoid.a : ℝ) * m1)
  let p_rad := mu + p2 * Real.sin (2 * mu) + p3 * Real.sin (4 * mu)
    + p4 * Real.sin (6 * mu) + p5 * Real.sin (8 * mu)
  let p_sin := Real.sin p_rad
  let p_sin2 := p_sin ^ (2 : ℕ)
  let p_cos := Real.cos p_rad
  let p_tan := Real.tan p_rad
  let p_tan2 := p_tan ^ (2 : ℕ)
  let p_tan4 := p_tan ^ (4 : ℕ)
  let ep_sin := 1 - (E : ℝ) * p_sin2
  let ep_sin_sqrt := Real.sqrt ep_sin
  let n := (ellipsoid.a : ℝ) / ep_sin_sqrt
  let r := (1 - (E : ℝ)) / ep_sin
  let c := te * p_cos * p_cos
  let c2 := c * c
  let d := x / (n * (K0 : ℝ))
  let d2 := d ^ (2 : ℕ)
  let d3 := d ^ (3 : ℕ)
  let d4 := d ^ (4 : ℕ)
  let d5 := d ^ (5 : ℕ)
  let d6 := d ^ (6 : ℕ)
  let latitude := p_rad
    - p_tan / r * (d2 / 2 - d4 / 24 * (5 + 3 * p_tan2 + 10 * c - 4 * c2 - 9 * e_p2))
    + d6 / 720 * (61 + 90 * p_tan2 + 298 * c + 45 * p_tan4 - 252 * e_p2 - 3 * c2)
  let longitude := (d - d3 / 6 * (1 + 2 * p_tan2 + c)
    + d5 / 120 * (5 - 2 * c + 28 * p_tan2 - 3 * c2 + 8 * e_p2 + 24 * p_tan4)) / p_cos
  (latitude / Real.pi * 180,
    longitude / Real.pi * 180 + ((zone_num : ℝ) - 1) * 6 - 180 + 3)

/-- Rust `pub fn wsg84_utm_to_lat_lon(easting: f64, northing: f64, zone_num: u8, zone_letter: char)
-> Result<(f64, f64), WSG84ToLatLonError>` (`lib.rs` lines 185-279).
Validation happens first, in source order; then `y -= 1e7` exactly when
`zone_letter < 'N'` (`let northern = zone_letter >= 'N'`). -/
noncomputable def wsg84_utm_to_lat_lon (easting northing : ℚ) (zone_num : ℕ)
    (zone_letter : Char) : Except WSG84ToLatLonError (ℝ × ℝ) :=
  if easting < 100000 ∨ 1000000 ≤ easting then .error .EastingOutOfRange
  else if northing < 0 ∨ northing > 10000000 then .error .NorthingOutOfRange
  else if zone_num < 1 ∨ zone_num > 60 then .error .ZoneNumOutOfRange
  else if zone_letter < 'C' ∨ zone_letter > 'X' then .error .ZoneLetterOutOfRange
  else .ok (utm_to_lat_lon_core easting
    (if zone_letter ≥ 'N' then northing else northing - 10000000) zone_num)

/-!
## Theorems
-/

/-- Claim C3: for every latitude and longitude, `to_utm_wgs84_no_zone lat lon`
returns exactly the same triple as
`to_utm_wgs84 lat lon (lat_lon_to_zone_number lat lon)`. -/
theorem to_utm_wgs84_no_zone_eq_explicit_zone (latitude longitude : ℚ) :
    to_utm_wgs84_no_zone latitude longitude
      = to_utm_wgs84 latitude longitude (lat_lon_to_zone_number latitude longitude) :=
  rfl

/-- Claim C4: for every latitude, longitude and zone,
`to_utm_wgs84 latDeg lonDeg z` returns exactly the same triple as
`radians_to_utm_wgs84 (latDeg * π / 180) (lonDeg * π / 180) z`. -/
theorem to_utm_wgs84_eq_radians_to_utm_wgs84 (latitude longitude : ℚ) (zone : ℕ) :
    to_utm_wgs84 latitude longitude zone
      = radians_to_utm_wgs84 ((latitude : ℝ) * Real.pi / 180)
          ((longitude : ℝ) * Real.pi / 180) zone :=
  rfl

/-- Claim C9, counterexample: the hardcoded inverse-path constant
`E = 0.00669438` and the forward-path value `2f - f^2` derived from the
`WGS84` struct are not equal. -/
theorem forward_inverse_eccentricity_ne :
    2 * WGS84.f - WGS84.f * WGS84.f ≠ E := by
  norm_num [WGS84, E]

/-- Claim C9, amended: both constants represent an eccentricity squared of
the ellipsoid, but they agree only to about ten decimal places, not to full
precision: the exact gap `(2f - f^2) - E` lies strictly between `2.29e-11`
and `2.30e-11`. -/
theorem forward_inverse_eccentricity_gap :
    E < 2 * WGS84.f - WGS84.f * WGS84.f
      ∧ 2 * WGS84.f - WGS84.f * WGS84.f - E < 230 / 10000000000000
      ∧ 229 / 10000000000000 < 2 * WGS84.f - WGS84.f * WGS84.f - E := by
  refine ⟨?_, ?_, ?_⟩ <;> norm_num [WGS84, E]

/-- Claim C7: on `[-80, 84]`, `lat_to_zone_letter` returns `some` of the
character at index `⌊(lat + 80) / 8⌋` of the fixed table
`"CDEFGHJKLMNPQRSTUVWXX"` (the index is always in bounds, so the topmost
band up to 84° yields the final duplicated letter of the table), and it
returns `none` for every latitude outside `[-80, 84]`. -/
theorem lat_to_zone_letter_spec (latitude : ℚ) :
    (-80 ≤ latitude → latitude ≤ 84 →
      lat_to_zone_letter latitude
          = ZONE_LETTERS.get? (Int.toNat ⌊(latitude + 80) / 8⌋)
        ∧ (ZONE_LETTERS.get? (Int.toNat ⌊(latitude + 80) / 8⌋)).isSome = true)
    ∧ (¬ (-80 ≤ latitude ∧ latitude ≤ 84) → lat_to_zone_letter latitude = none) := by
  constructor
  · intro h1 h2
    have hfloor : ⌊(latitude + 80) / 8⌋ ≤ 20 := by
      have hle : (latitude + 80) / 8 ≤ 41 / 2 := by linarith
      calc ⌊(latitude + 80) / 8⌋ ≤ ⌊(41 / 2 : ℚ)⌋ := Int.floor_le_floor hle
        _ = 20 := by norm_num
    have hidx : Int.toNat ⌊(latitude + 80) / 8⌋ < ZONE_LETTERS.length := by
      have : ZONE_LETTERS.length = 21 := rfl
      omega
    refine ⟨?_, ?_⟩
    · unfold lat_to_zone_letter
      rw [if_pos ⟨h1, h2⟩]
    · rw [List.get?_eq_get hidx]
      rfl
  · intro h
    unfold lat_to_zone_letter
    rw [if_neg h]

/-- Claim C7, witness: at latitude 84 the letter is `'X'` (topmost band),
and at latitude 85 there is no letter. -/
theorem lat_to_zone_letter_spec_witness :
    lat_to_zone_letter 84 = some 'X' ∧ lat_to_zone_letter 85 = none := by
  constructor
  · have h := (lat_to_zone_letter_spec 84).1 (by norm_num) (by norm_num)
    rw [h.1]
    norm_num
    decide
  · exact (lat_to_zone_letter_spec 85).2 (by norm_num)

/-- Claim C6, counterexample: at latitude 0, longitude 180 the function
returns 61, outside `[1, 60]` (the floor formula gives 61 and the `u8` cast
keeps it). -/
theorem lat_lon_to_zone_number_range_cex :
    lat_lon_to_zone_number 0 180 = 61 ∧ ¬ lat_lon_to_zone_number 0 180 ≤ 60 := by
  have h : lat_lon_to_zone_number 0 180 = 61 := by
    norm_num [lat_lon_to_zone_number, satCastU8]
    decide
  exact ⟨h, by rw [h]; omega⟩

/-- Claim C6, amended: `lat_lon_to_zone_number` is a total function (no
error path), and for every latitude and every longitude in `[-180, 180)`
its result lies in `[1, 60]`; for longitudes outside that interval the
final `u8` cast of the floor formula can leave `[1, 60]`. -/
theorem lat_lon_to_zone_number_range (lat lon : ℚ)
    (h1 : -180 ≤ lon) (h2 : lon < 180) :
    1 ≤ lat_lon_to_zone_number lat lon ∧ lat_lon_to_zone_number lat lon ≤ 60 := by
  have h0 : 0 ≤ ⌊(lon + 180) / 6⌋ :=
    Int.floor_nonneg.mpr (div_nonneg (by linarith) (by norm_num))
  have h60 : ⌊(lon + 180) / 6⌋ < 60 := by
    apply Int.floor_lt.mpr
    rw [div_lt_iff₀ (by norm_num : (0 : ℚ) < 6)]
    push_cast
    linarith
  have hfb : 1 ≤ satCastU8 (⌊(lon + 180) / 6⌋ + 1)
      ∧ satCastU8 (⌊(lon + 180) / 6⌋ + 1) ≤ 60 := by
    unfold satCastU8
    rw [if_neg (by omega), if_neg (by omega)]
    omega
  unfold lat_lon_to_zone_number
  split_ifs <;> first | exact hfb | omega

/-- Claim C6, witness: at the origin the zone number is 31, inside `[1, 60]`. -/
theorem lat_lon_to_zone_number_range_witness :
    1 ≤ lat_lon_to_zone_number 0 0 ∧ lat_lon_to_zone_number 0 0 ≤ 60 :=
  lat_lon_to_zone_number_range 0 0 (by norm_num) (by norm_num)

/-- Claim C5, counterexample: at latitude 0, longitude 1350 (a "remaining
case"), the claimed formula gives `⌊(1350 + 180) / 6⌋ + 1 = 256`, but the
function returns 255 because Rust's `as u8` cast saturates. -/
theorem lat_lon_to_zone_number_fallback_cex :
    lat_lon_to_zone_number 0 1350 = 255
      ∧ ⌊((1350 : ℚ) + 180) / 6⌋ + 1 = 256
      ∧ (lat_lon_to_zone_number 0 1350 : ℤ) ≠ ⌊((1350 : ℚ) + 180) / 6⌋ + 1 := by
  have hval : lat_lon_to_zone_number 0 1350 = 255 := by
    norm_num [lat_lon_to_zone_number, satCastU8]
  have hformula : ⌊((1350 : ℚ) + 180) / 6⌋ + 1 = 256 := by norm_num
  refine ⟨hval, hformula, ?_⟩
  rw [hval, hformula]
  omega

/-- Claim C5, amended: the Norway branch forces 32; the Svalbard branch
forces 31/33/35/37 for its four longitude sub-bands and otherwise falls
through; all remaining cases return the `u8` saturating cast of
`⌊(lon + 180) / 6⌋ + 1`, which equals the formula value itself whenever
that value lies within `[0, 255]`. -/
theorem lat_lon_to_zone_number_cases (lat lon : ℚ) :
    (56 ≤ lat ∧ lat < 64 ∧ 3 ≤ lon ∧ lon < 12 →
      lat_lon_to_zone_number lat lon = 32)
  ∧ (¬ (56 ≤ lat ∧ lat < 64 ∧ 3 ≤ lon ∧ lon < 12) →
      72 ≤ lat ∧ lat ≤ 84 ∧ 0 ≤ lon →
        (lon < 9 → lat_lon_to_zone_number lat lon = 31)
      ∧ (¬ lon < 9 → lon < 21 → lat_lon_to_zone_number lat lon = 33)
      ∧ (¬ lon < 21 → lon < 33 → lat_lon_to_zone_number lat lon = 35)
      ∧ (¬ lon < 33 → lon < 42 → lat_lon_to_zone_number lat lon = 37)
      ∧ (¬ lon < 42 →
          lat_lon_to_zone_number lat lon = satCastU8 (⌊(lon + 180) / 6⌋ + 1)))
  ∧ (¬ (56 ≤ lat ∧ lat < 64 ∧ 3 ≤ lon ∧ lon < 12) →
      ¬ (72 ≤ lat ∧ lat ≤ 84 ∧ 0 ≤ lon) →
        lat_lon_to_zone_number lat lon = satCastU8 (⌊(lon + 180) / 6⌋ + 1))
  ∧ (0 ≤ ⌊(lon + 180) / 6⌋ + 1 → ⌊(lon + 180) / 6⌋ + 1 ≤ 255 →
      (satCastU8 (⌊(lon + 180) / 6⌋ + 1) : ℤ) = ⌊(lon + 180) / 6⌋ + 1) := by
  refine ⟨?_, ?_, ?_, ?_⟩
  · intro h
    unfold lat_lon_to_zone_number
    rw [if_pos h]
  · intro hA hB
    unfold lat_lon_to_zone_number
    rw [if_neg hA, if_pos hB]
    refine ⟨?_, ?_, ?_, ?_, ?_⟩
    · intro h9
      rw [if_pos h9]
    · intro h9 h21
      rw [if_neg h9, if_pos h21]
    · intro h21 h33
      rw [if_neg (by intro h; exact h21 (by linarith)), if_neg h21, if_pos h33]
    · intro h33 h42
      rw [if_neg (by intro h; exact h33 (by linarith)),
        if_neg (by intro h; exact h33 (by linarith)), if_neg h33, if_pos h42]
    · intro h42
      rw [if_neg (by intro h; exact h42 (by linarith)),
        if_neg (by intro h; exact h42 (by linarith)),
        if_neg (by intro h; exact h42 (by linarith)), if_neg h42]
  · intro hA hB
    unfold lat_lon_to_zone_number
    rw [if_neg hA, if_neg hB]
  · intro hlo hhi
    unfold satCastU8
    rw [if_neg (by omega), if_neg (by omega)]
    omega

/-- Claim C5, witness: the Norway override at (60, 5) forces zone 32. -/
theorem lat_lon_to_zone_number_cases_witness :
    lat_lon_to_zone_number 60 5 = 32 :=
  (lat_lon_to_zone_number_cases 60 5).1 (by norm_num)

/-- Helper: when all four validation checks pass, `wsg84_utm_to_lat_lon`
returns `Ok` of the core computation on the hemisphere-adjusted northing. -/
theorem wsg84_utm_to_lat_lon_ok_of_valid (e n : ℚ) (zn : ℕ) (zl : Char)
    (he1 : 100000 ≤ e) (he2 : e < 1000000) (hn1 : 0 ≤ n) (hn2 : n ≤ 10000000)
    (hz1 : 1 ≤ zn) (hz2 : zn ≤ 60) (hl1 : 'C' ≤ zl) (hl2 : zl ≤ 'X') :
    wsg84_utm_to_lat_lon e n zn zl
      = .ok (utm_to_lat_lon_core e (if 'N' ≤ zl then n else n - 10000000) zn) := by
  unfold wsg84_utm_to_lat_lon
  rw [if_neg (by rintro (h | h) <;> linarith),
    if_neg (by rintro (h | h) <;> linarith),
    if_neg (by omega),
    if_neg (by
      rintro (h | h)
      · exact absurd h (not_lt.mpr hl1)
      · exact absurd h (not_lt.mpr hl2))]

/-- Claim C2: `wsg84_utm_to_lat_lon` returns an error exactly when one of
the four range checks fails; the checks run in source order and the first
violated one picks the variant; when all four pass the result is `Ok`. -/
theorem wsg84_utm_to_lat_lon_error_spec (e n : ℚ) (zn : ℕ) (zl : Char) :
    (wsg84_utm_to_lat_lon e n zn zl = .error .EastingOutOfRange
      ↔ e < 100000 ∨ 1000000 ≤ e)
  ∧ (wsg84_utm_to_lat_lon e n zn zl = .error .NorthingOutOfRange
      ↔ ¬ (e < 100000 ∨ 1000000 ≤ e) ∧ (n < 0 ∨ n > 10000000))
  ∧ (wsg84_utm_to_lat_lon e n zn zl = .error .ZoneNumOutOfRange
      ↔ ¬ (e < 100000 ∨ 1000000 ≤ e) ∧ ¬ (n < 0 ∨ n > 10000000)
        ∧ (zn < 1 ∨ zn > 60))
  ∧ (wsg84_utm_to_lat_lon e n zn zl = .error .ZoneLetterOutOfRange
      ↔ ¬ (e < 100000 ∨ 1000000 ≤ e) ∧ ¬ (n < 0 ∨ n > 10000000)
        ∧ ¬ (zn < 1 ∨ zn > 60) ∧ (zl < 'C' ∨ zl > 'X'))
  ∧ ((∃ p, wsg84_utm_to_lat_lon e n zn zl = .ok p)
      ↔ ¬ (e < 100000 ∨ 1000000 ≤ e) ∧ ¬ (n < 0 ∨ n > 10000000)
        ∧ ¬ (zn < 1 ∨ zn > 60) ∧ ¬ (zl < 'C' ∨ zl > 'X')) := by
  unfold wsg84_utm_to_lat_lon
  split_ifs with hA hB hC hD <;> simp_all

/-- Claim C2, witness: with every field out of range, the easting check
fires first; with everything in range the call succeeds. -/
theorem wsg84_utm_to_lat_lon_error_spec_witness :
    wsg84_utm_to_lat_lon 50 (-1) 61 'y' = .error .EastingOutOfRange
      ∧ (∃ p, wsg84_utm_to_lat_lon 313784 5427057 60 'G' = .ok p) := by
  constructor
  · exact (wsg84_utm_to_lat_lon_error_spec 50 (-1) 61 'y').1.mpr
      (Or.inl (by norm_num))
  · exact (wsg84_utm_to_lat_lon_error_spec 313784 5427057 60 'G').2.2.2.2.mpr
      ⟨by rintro (h | h) <;> norm_num at h,
       by rintro (h | h) <;> norm_num at h,
       by omega,
       by rintro (h | h) <;> exact absurd h (by decide)⟩

/-- Claim C8: once validation passes, the hemisphere is decided by
`zone_letter ≥ 'N'`; a southern northing has 10,000,000 subtracted before
the core computation uses it, and a northern northing is used unchanged. -/
theorem wsg84_utm_to_lat_lon_hemisphere (e n : ℚ) (zn : ℕ) (zl : Char)
    (he1 : 100000 ≤ e) (he2 : e < 1000000) (hn1 : 0 ≤ n) (hn2 : n ≤ 10000000)
    (hz1 : 1 ≤ zn) (hz2 : zn ≤ 60) (hl1 : 'C' ≤ zl) (hl2 : zl ≤ 'X') :
    ('N' ≤ zl → wsg84_utm_to_lat_lon e n zn zl
        = .ok (utm_to_lat_lon_core e n zn))
  ∧ (zl < 'N' → wsg84_utm_to_lat_lon e n zn zl
        = .ok (utm_to_lat_lon_core e (n - 10000000) zn)) := by
  have hok := wsg84_utm_to_lat_lon_ok_of_valid e n zn zl
    he1 he2 hn1 hn2 hz1 hz2 hl1 hl2
  constructor
  · intro hN
    rw [hok, if_pos hN]
  · intro hS
    rw [hok, if_neg (not_le.mpr hS)]

/-- Claim C8, witness: zone letter `'G'` is southern, so the reference
inverse fixture uses `northing - 10000000` in the core computation. -/
theorem wsg84_utm_to_lat_lon_hemisphere_witness :
    wsg84_utm_to_lat_lon 313784 5427057 60 'G'
      = .ok (utm_to_lat_lon_core 313784 (5427057 - 10000000) 60) :=
  (wsg84_utm_to_lat_lon_hemisphere 313784 5427057 60 'G'
    (by norm_num) (by norm_num) (by norm_num) (by norm_num)
    (by norm_num) (by norm_num) (by decide) (by decide)).2 (by decide)

/-- Claim C10: every character from `'C'` to `'X'` in code-point order
passes the zone-letter check — including `'I'` and `'O'`, which are not in
the band table `ZONE_LETTERS` and are never produced by
`lat_to_zone_letter` — and for all of them the hemisphere is still decided
by comparison with `'N'`. -/
theorem wsg84_utm_to_lat_lon_letter_range :
    (∀ (e n : ℚ) (zn : ℕ) (c : Char),
      100000 ≤ e → e < 1000000 → 0 ≤ n → n ≤ 10000000 →
      1 ≤ zn → zn ≤ 60 → 'C' ≤ c → c ≤ 'X' →
        wsg84_utm_to_lat_lon e n zn c
          = .ok (utm_to_lat_lon_core e (if 'N' ≤ c then n else n - 10000000) zn))
  ∧ ('C' ≤ 'I' ∧ 'I' ≤ 'X' ∧ 'C' ≤ 'O' ∧ 'O' ≤ 'X')
  ∧ ('I' ∉ ZONE_LETTERS ∧ 'O' ∉ ZONE_LETTERS)
  ∧ (∀ lat : ℚ, lat_to_zone_letter lat ≠ some 'I'
      ∧ lat_to_zone_letter lat ≠ some 'O') := by
  refine ⟨?_, by decide, by decide, ?_⟩
  · intro e n zn c he1 he2 hn1 hn2 hz1 hz2 hc1 hc2
    exact wsg84_utm_to_lat_lon_ok_of_valid e n zn c he1 he2 hn1 hn2 hz1 hz2 hc1 hc2
  · intro lat
    unfold lat_to_zone_letter
    split_ifs with h
    · constructor <;>
      · intro hsome
        have hmem := List.get?_mem hsome
        revert hmem
        decide
    · constructor <;> simp

/-- Claim C10, witness: the letter `'I'` (not a band letter) is accepted;
being below `'N'` it is treated as southern. -/
theorem wsg84_utm_to_lat_lon_letter_range_witness :
    wsg84_utm_to_lat_lon 261878 6243186 34 'I'
      = .ok (utm_to_lat_lon_core 261878
          (if 'N' ≤ 'I' then 6243186 else 6243186 - 10000000) 34) :=
  wsg84_utm_to_lat_lon_letter_range.1 261878 6243186 34 'I'
    (by norm_num) (by norm_num) (by norm_num) (by norm_num)
    (by norm_num) (by norm_num) (by decide) (by decide)
